import Mathlib

/-!
Verification development for the weather-information-agent service.

Shallow embedding of the repository's core:
* `clients/openWeatherAPI.py` — the resilient HTTP client (`OpenWeatherClient._get`,
  `OpenWeatherClient._compute_delay`), modelled as a pure state machine over a
  stream of per-attempt outcomes;
* `tools/weather_tools.py` and `tools/forecast_tools.py` — the tools
  (`city_to_coords`, `get_current_weather`, `get_forecast`), modelled as
  `Except`-valued functions parameterised by the outcome of their upstream
  HTTP call (Python exceptions become `Except.error`);
* `agents/weather_agent.py` — the tool-calling loop (`WeatherAgent.invoke`),
  modelled as a fuel-indexed recursion over an LLM oracle
  `List Message → AIResponse`.

Python `dict` values that the claims inspect are modelled as ordered
association lists (`List (String × PyLeaf)`), matching Python dict literal /
insertion order.  Machine floats of the source carry provider-supplied
numeric data; they are modelled as `ℚ` (all arithmetic the code performs on
them — `*`, `max`, comparisons — is exact on the values the claims use).
Naive `datetime` values (`datetime.utcnow()`, `datetime.fromtimestamp`) are
modelled as integer seconds since the Unix epoch; the source compares
`fromtimestamp` values (local time) with `utcnow()` values (UTC), which agree
under a UTC process timezone — the spec itself records this approximation.
-/

namespace WeatherAgentModel

/-- A leaf Python value as it appears in the dicts the tools return:
`None`, a string, a float (modelled as `ℚ`), or an int. -/
inductive PyLeaf where
  | none
  | str (s : String)
  | rat (q : ℚ)
  | int (n : ℤ)
  deriving DecidableEq, Repr

/-- Lift an optional float (`dict.get` result) to a Python value:
`None` when absent. -/
def leafOf : Option ℚ → PyLeaf
  | Option.none => PyLeaf.none
  | Option.some q => PyLeaf.rat q

/-- The keys of an ordered dict (association list), in order. -/
def keysOf {α : Type} (d : List (String × α)) : List String :=
  d.map (fun kv => kv.1)

/-! ## Resilient HTTP client (`clients/openWeatherAPI.py`)

`OpenWeatherClient._get` performs up to `max_retries` attempts.  Each attempt
either yields an HTTP response (a status code plus headers/body) or raises a
transport-level error (`httpx.ConnectError`, `ReadTimeout`, `WriteError`,
`RemoteProtocolError`).  We model the network as a function from the attempt
number (1-based) to that attempt's outcome, and record the trace the call
produces: how many attempts were made, which sleeps happened, and the final
result. -/

/-- The `Retry-After` header of a response, as `_compute_delay` sees it:
absent (or empty, which Python's `if ra:` treats the same), a numeric value
(`float(ra)` succeeds), or a non-numeric string (`float(ra)` raises
`ValueError`). -/
inductive RAHeader where
  | numeric (seconds : ℚ)
  | nonNumeric
  deriving DecidableEq, Repr

/-- An HTTP response: status code, optional `Retry-After` header, JSON body
(kept abstract as a string). -/
structure HttpResponse where
  status : ℕ
  retryAfter : Option RAHeader
  body : String
  deriving DecidableEq, Repr

/-- Outcome of one attempt inside `_get`'s `try` block: either a response
came back, or a retriable transport error was raised. -/
inductive AttemptOutcome where
  | response (r : HttpResponse)
  | transportError (e : String)
  deriving DecidableEq, Repr

/-- The final result of a `_get` call: parsed body on success, or the raised
exception (`httpx.HTTPStatusError` carrying the status, a re-raised transport
error, or the defensive `RuntimeError` of the fall-out branch). -/
inductive GetResult where
  | ok (body : String)
  | httpStatusError (status : ℕ)
  | transportError (e : String)
  | runtimeError
  deriving DecidableEq, Repr

/-- Trace of a `_get` call: number of attempts performed, sleeps in
chronological order, final result. -/
structure GetTrace where
  attempts : ℕ
  sleeps : List ℚ
  result : GetResult
  deriving DecidableEq, Repr

/-- `OpenWeatherClient._compute_delay` (lines 107–122):
exponential backoff `backoff_factor * 2^(attempt-1)`; when the failed
response is a 429 carrying a numeric `Retry-After`, the larger of the header
and the backoff; a non-numeric header is ignored. -/
def compute_delay (backoff_factor : ℚ) (attempt : ℕ) (resp : Option HttpResponse) : ℚ :=
  let base := backoff_factor * 2 ^ (attempt - 1)
  match resp with
  | Option.none => base
  | Option.some r =>
    if r.status = 429 then
      match r.retryAfter with
      | Option.some (RAHeader.numeric seconds) => max seconds base
      | Option.some RAHeader.nonNumeric => base
      | Option.none => base
    else base

/-- Is this status retried by `_get`?  Line 77:
`resp.status_code in (429,) or 500 <= resp.status_code < 600`. -/
def retriableStatus (s : ℕ) : Bool :=
  s = 429 || (500 ≤ s && s < 600)

/-- `httpx.Response.raise_for_status` raises for every non-2xx status. -/
def is2xx (s : ℕ) : Bool :=
  200 ≤ s && s < 300

/-- The `while attempt < self.max_retries` loop of `_get` (lines 65–105).
`attempt` counts attempts already made; `fuel = max_retries - attempt`
bounds the remaining iterations.  `outcome n` is what the `n`-th attempt's
`self._client.get` produces (1-based). -/
def getLoop (max_retries : ℕ) (backoff_factor : ℚ) (outcome : ℕ → AttemptOutcome) :
    ℕ → ℕ → GetTrace
  | attempt, 0 =>
    -- loop condition failed: the defensive `raise RuntimeError` at line 105
    -- (`last_exc` can only still be `None` here)
    ⟨attempt, [], GetResult.runtimeError⟩
  | attempt, fuel + 1 =>
    let a := attempt + 1       -- `attempt += 1`
    match outcome a with
    | AttemptOutcome.response r =>
      if retriableStatus r.status then
        -- line 78: delay computed (with the response) before the budget check
        let d := compute_delay backoff_factor a (Option.some r)
        if a < max_retries then
          -- `await asyncio.sleep(delay); continue`
          let t := getLoop max_retries backoff_factor outcome a fuel
          ⟨t.attempts, d :: t.sleeps, t.result⟩
        else
          -- fall through to `resp.raise_for_status()`: 429/5xx is non-2xx,
          -- so it raises `httpx.HTTPStatusError`, re-raised at line 100
          ⟨a, [], GetResult.httpStatusError r.status⟩
      else if is2xx r.status then
        ⟨a, [], GetResult.ok r.body⟩     -- `return resp.json()`
      else
        -- `raise_for_status` raises immediately; not retried
        ⟨a, [], GetResult.httpStatusError r.status⟩
    | AttemptOutcome.transportError e =>
      if a < max_retries then
        let d := compute_delay backoff_factor a Option.none
        let t := getLoop max_retries backoff_factor outcome a fuel
        ⟨t.attempts, d :: t.sleeps, t.result⟩
      else
        ⟨a, [], GetResult.transportError e⟩   -- out of retries: re-raise

/-- `OpenWeatherClient._get` as a whole: run the retry loop from zero
attempts with the constructor-clamped retry budget. -/
def openGet (max_retries : ℕ) (backoff_factor : ℚ) (outcome : ℕ → AttemptOutcome) : GetTrace :=
  -- `self.max_retries = max(1, max_retries)` (line 37)
  let mr := max 1 max_retries
  getLoop mr backoff_factor outcome 0 mr

/-! ## Query-parameter merging (`_get` lines 62–63)

`qp = dict(params or {}); qp["appid"] = self.api_key` copies the caller's
mapping before writing the key.  To make the frame property non-trivial we
model Python dict *objects*: a heap of dicts addressed by references, where
`dict(...)` allocates a fresh object and item assignment mutates one object
in place. -/

/-- An ordered Python dict value (insertion order preserved). -/
abbrev Dict := List (String × PyLeaf)

/-- Item assignment `d[k] = v`: overwrite in place when the key exists,
append otherwise (Python dict insertion-order semantics). -/
def dictSet (d : Dict) (k : String) (v : PyLeaf) : Dict :=
  if d.any (fun kv => kv.1 = k) then
    d.map (fun kv => if kv.1 = k then (k, v) else kv)
  else d ++ [(k, v)]

/-- A heap of dict objects; a reference is an index into the store. -/
structure Heap where
  dicts : List Dict
  deriving DecidableEq, Repr

/-- Dereference (unallocated references read as empty). -/
def Heap.read (h : Heap) (r : ℕ) : Dict :=
  (h.dicts[r]?).getD []

/-- Allocate a fresh dict object holding `d`; returns the new heap and the
fresh reference. -/
def Heap.alloc (h : Heap) (d : Dict) : Heap × ℕ :=
  (⟨h.dicts ++ [d]⟩, h.dicts.length)

/-- In-place update of the object behind `r`. -/
def Heap.write (h : Heap) (r : ℕ) (d : Dict) : Heap :=
  ⟨h.dicts.set r d⟩

/-- `_get` lines 62–63: `qp = dict(params or {}); qp["appid"] = self.api_key`.
`params` is the caller's dict reference (`Option.none` models `params = None`,
whose `params or {}` also copies nothing).  Returns the heap after the two
statements and the reference `qp` used for the request. -/
def openGetMergeParams (h : Heap) (params : Option ℕ) (apiKey : String) : Heap × ℕ :=
  let contents : Dict :=
    match params with
    | Option.none => []
    | Option.some r => h.read r
  let (h1, qp) := h.alloc contents
  let h2 := h1.write qp (dictSet (h1.read qp) "appid" (PyLeaf.str apiKey))
  (h2, qp)

/-! ## Tools (`tools/weather_tools.py`, `tools/forecast_tools.py`)

Each tool performs one upstream HTTP call through `OpenWeatherClient`; we
parameterise the tool by that call's outcome (`Except PyErr raw`), with
`Except.error` standing for a raised Python exception.  A tool whose own body
raises propagates the exception in the `Except` monad; a `try/except` block
in the source becomes an explicit `match` on the inner computation. -/

/-- A raised Python exception, as the tools can observe one. -/
inductive PyErr where
  | httpStatusError (status : ℕ)
  | transportError (e : String)
  | indexError
  | keyError (key : String)
  | attributeError (name : String)
  | runtimeError
  deriving DecidableEq, Repr

/-- `str(e)` for the exceptions above (the exact text only ever feeds
human-readable error fields; no claim inspects it beyond non-emptiness). -/
def PyErr.toMessage : PyErr → String
  | PyErr.httpStatusError s => "HTTP status error " ++ toString s
  | PyErr.transportError e => e
  | PyErr.indexError => "list index out of range"
  | PyErr.keyError k => k
  | PyErr.attributeError n => "AsyncClient object has no attribute " ++ n
  | PyErr.runtimeError => "OpenWeather request failed without an exception."

/-- A geocoding candidate as `city_to_coords` reads it.  `name`, `state`,
`country` use `Option.none` for an absent key (or a `None` value — `dict.get`
returns `None` in both cases); `lat`/`lon` use `Option.none` for an absent
key, on which the subscript `place["lat"]` raises `KeyError`. -/
structure GeoPlace where
  name : Option String
  state : Option String
  country : Option String
  lat : Option ℚ
  lon : Option ℚ
  deriving DecidableEq, Repr

/-- Python truthiness of an optional string: `None` and `""` are falsy. -/
def pyTruthy : Option String → Bool
  | Option.none => false
  | Option.some s => !s.isEmpty

/-- `weather_tools.py` lines 39–43: start from `place.get("name", "")`, then
append `", " + state` and `", " + country` when truthy. -/
def buildNormalizedName (place : GeoPlace) : String :=
  let n0 := place.name.getD ""
  let n1 := if pyTruthy place.state then n0 ++ ", " ++ place.state.getD "" else n0
  if pyTruthy place.country then n1 ++ ", " ++ place.country.getD "" else n1

/-- Dict subscript on an optional float field: raises `KeyError` if absent. -/
def getItemQ (o : Option ℚ) (key : String) : Except PyErr ℚ :=
  match o with
  | Option.none => Except.error (PyErr.keyError key)
  | Option.some q => Except.ok q

/-- `city_to_coords` (`tools/weather_tools.py` lines 8–49).  The tool has no
`try/except`: a failure of the geocoding call propagates out of the tool.
`geocode` is the outcome of `client.geocode_direct(q=city, limit=1, ...)`. -/
def city_to_coords (city : String) (geocode : Except PyErr (List GeoPlace)) :
    Except PyErr (List (String × PyLeaf)) := do
  let results ← geocode
  match results with
  | [] =>
    pure [("error", PyLeaf.str ("Could not find coordinates for '" ++ city ++ "'")),
          ("lat", PyLeaf.none), ("lon", PyLeaf.none),
          ("normalized_name", PyLeaf.none)]
  | place :: _ =>
    let normalized_name := buildNormalizedName place
    let lat ← getItemQ place.lat "lat"
    let lon ← getItemQ place.lon "lon"
    pure [("lat", PyLeaf.rat lat), ("lon", PyLeaf.rat lon),
          ("normalized_name", PyLeaf.str normalized_name)]

/-- The sub-object `raw.get("main", {})` of a current-weather/forecast
response (each field via `.get`, so absent keys read as `None`). -/
structure RawMain where
  temp : Option ℚ
  feels_like : Option ℚ
  humidity : Option ℚ
  pressure : Option ℚ
  temp_min : Option ℚ
  temp_max : Option ℚ
  deriving DecidableEq, Repr

/-- The empty dict `{}` read as a `main` object. -/
def RawMain.empty : RawMain :=
  ⟨Option.none, Option.none, Option.none, Option.none, Option.none, Option.none⟩

/-- One element of the provider's `weather` array. -/
structure RawWeatherItem where
  main : Option String
  description : Option String
  deriving DecidableEq, Repr

/-- The empty dict `{}` read as a weather item. -/
def RawWeatherItem.empty : RawWeatherItem := ⟨Option.none, Option.none⟩

/-- The provider's `wind` object. -/
structure RawWind where
  speed : Option ℚ
  deg : Option ℚ
  deriving DecidableEq, Repr

/-- The empty dict `{}` read as a wind object. -/
def RawWind.empty : RawWind := ⟨Option.none, Option.none⟩

/-- The provider's `clouds` object. -/
structure RawClouds where
  all : Option ℚ
  deriving DecidableEq, Repr

/-- The empty dict `{}` read as a clouds object. -/
def RawClouds.empty : RawClouds := ⟨Option.none⟩

/-- A raw current-weather response as `get_current_weather` reads it. -/
structure RawCurrent where
  main : Option RawMain
  weather : Option (List RawWeatherItem)
  wind : Option RawWind
  clouds : Option RawClouds
  visibility : Option ℚ
  deriving DecidableEq, Repr

/-- `raw.get("weather", [{}])[0]`: when the key is absent the default
singleton `[{}]` yields the empty item; when the key holds an empty list the
subscript raises `IndexError`. -/
def headOrDefault (w : Option (List RawWeatherItem)) : Except PyErr RawWeatherItem :=
  match w with
  | Option.none => Except.ok RawWeatherItem.empty
  | Option.some [] => Except.error PyErr.indexError
  | Option.some (w0 :: _) => Except.ok w0

/-- `weather_tools.py` line 82: temperature unit suffix from `units`. -/
def tempUnitFor (units : String) : String :=
  if units = "metric" then "°C" else if units = "imperial" then "°F" else "K"

/-- `weather_tools.py` line 83: wind unit suffix from `units`. -/
def windUnitFor (units : String) : String :=
  if units = "metric" then "m/s" else if units = "imperial" then "mph" else "m/s"

/-- The normalization block of `get_current_weather` (lines 75–98), inside
the `try`. -/
def normalizeCurrent (raw : RawCurrent) (units : String) :
    Except PyErr (List (String × PyLeaf)) := do
  let main := raw.main.getD RawMain.empty
  let weather ← headOrDefault raw.weather
  let wind := raw.wind.getD RawWind.empty
  let clouds := raw.clouds.getD RawClouds.empty
  pure [("temp", leafOf main.temp),
        ("temp_unit", PyLeaf.str (tempUnitFor units)),
        ("feels_like", leafOf main.feels_like),
        ("condition", PyLeaf.str (weather.main.getD "Unknown")),
        ("description", PyLeaf.str (weather.description.getD "")),
        ("wind_speed", leafOf wind.speed),
        ("wind_unit", PyLeaf.str (windUnitFor units)),
        ("wind_deg", leafOf wind.deg),
        ("humidity", leafOf main.humidity),
        ("clouds", leafOf clouds.all),
        ("pressure", leafOf main.pressure),
        ("visibility", leafOf raw.visibility)]

/-- `get_current_weather` (`tools/weather_tools.py` lines 52–110): the whole
body sits in `try: ... except Exception as e: return {...}`.  `upstream` is
the outcome of `client.current_weather(lat=lat, lon=lon, units=units, ...)`.
The result is returned in `Except` so totality (never `Except.error`) is a
statement, not a typing artifact. -/
def get_current_weather (lat lon : ℚ) (units : String)
    (upstream : Except PyErr RawCurrent) : Except PyErr (List (String × PyLeaf)) :=
  match (do
      let raw ← upstream
      normalizeCurrent raw units : Except PyErr (List (String × PyLeaf))) with
  | Except.ok result => Except.ok result
  | Except.error e =>
    Except.ok
      [("error", PyLeaf.str ("Failed to fetch weather data: " ++ e.toMessage)),
       ("temp", PyLeaf.none), ("feels_like", PyLeaf.none),
       ("condition", PyLeaf.none), ("description", PyLeaf.none),
       ("wind_speed", PyLeaf.none), ("humidity", PyLeaf.none),
       ("clouds", PyLeaf.none)]

/-! ## Forecast tool (`tools/forecast_tools.py`)

Naive datetimes are integer seconds since the Unix epoch (see the header
note).  `datetime.replace(hour=h, minute=0, second=0, microsecond=0)`
becomes "floor to the day, add `h` hours"; `datetime.weekday()` (Monday = 0)
uses the fact that 1970-01-01 was a Thursday. -/

/-- Day index of a timestamp (floor division, valid for negative times). -/
def dayNumber (t : ℤ) : ℤ := Int.fdiv t 86400

/-- Seconds elapsed since the day's midnight. -/
def secondOfDay (t : ℤ) : ℤ := Int.fmod t 86400

/-- `t.replace(hour = h, minute = 0, second = 0, microsecond = 0)`. -/
def replaceHour (t h : ℤ) : ℤ := dayNumber t * 86400 + h * 3600

/-- `t.hour`. -/
def hourOf (t : ℤ) : ℤ := Int.fdiv (secondOfDay t) 3600

/-- `t.weekday()` — Monday = 0; 1970-01-01 (day 0) was a Thursday (3). -/
def pyWeekday (t : ℤ) : ℤ := Int.fmod (dayNumber t + 3) 7

/-- Gregorian date of a day index (days since 1970-01-01), by the standard
civil-from-days computation. -/
def civilFromDays (z0 : ℤ) : ℤ × ℤ × ℤ :=
  let z := z0 + 719468
  let era := Int.fdiv z 146097
  let doe := Int.fmod z 146097
  let yoe := Int.fdiv (doe - Int.fdiv doe 1460 + Int.fdiv doe 36524 - Int.fdiv doe 146096) 365
  let y0 := yoe + era * 400
  let doy := doe - (365 * yoe + Int.fdiv yoe 4 - Int.fdiv yoe 100)
  let mp := Int.fdiv (5 * doy + 2) 153
  let d := doy - Int.fdiv (153 * mp + 2) 5 + 1
  let m := mp + (if mp < 10 then 3 else -9)
  (if m ≤ 2 then y0 + 1 else y0, m, d)

/-- Two-digit zero padding. -/
def pad2 (n : ℤ) : String :=
  if 0 ≤ n ∧ n < 10 then "0" ++ toString n else toString n

/-- Four-digit zero padding (years). -/
def pad4 (n : ℤ) : String :=
  if 0 ≤ n ∧ n < 10 then "000" ++ toString n
  else if 0 ≤ n ∧ n < 100 then "00" ++ toString n
  else if 0 ≤ n ∧ n < 1000 then "0" ++ toString n
  else toString n

/-- `datetime.fromtimestamp(t).isoformat()` for whole-second timestamps:
`YYYY-MM-DDTHH:MM:SS`. -/
def isoformat (t : ℤ) : String :=
  let ymd := civilFromDays (dayNumber t)
  let s := secondOfDay t
  pad4 ymd.1 ++ "-" ++ pad2 ymd.2.1 ++ "-" ++ pad2 ymd.2.2 ++ "T" ++
    pad2 (Int.fdiv s 3600) ++ ":" ++ pad2 (Int.fmod (Int.fdiv s 60) 60) ++ ":" ++
    pad2 (Int.fmod s 60)

/-- One 3-hour forecast entry as `get_forecast` reads it.  `dt` is the
provider's epoch timestamp (`entry["dt"]`, always present in provider data);
the remaining sub-objects are read with `.get` defaults as in the current
weather tool, plus `pop` (`entry.get("pop", 0)`). -/
structure RawEntry where
  dt : ℤ
  main : Option RawMain
  weather : Option (List RawWeatherItem)
  wind : Option RawWind
  clouds : Option RawClouds
  pop : Option ℚ
  deriving DecidableEq, Repr

/-- A raw 5-day forecast response: `raw.get("list", [])`. -/
structure RawForecast where
  list : Option (List RawEntry)
  deriving DecidableEq, Repr

/-- The timeframe filter of `get_forecast` (lines 52–100), branch by branch.
`now` is `datetime.utcnow()`.  Every unrecognized timeframe takes the final
(`next_3_days`) branch. -/
def filterForecast (timeframe : String) (now : ℤ) (entries : List RawEntry) :
    List RawEntry :=
  if timeframe = "tonight" then
    let tonight_start := if hourOf now ≥ 18 then now else replaceHour now 18
    let tonight_end := replaceHour (now + 86400) 6
    entries.filter (fun en => tonight_start ≤ en.dt && en.dt ≤ tonight_end)
  else if timeframe = "tomorrow" then
    let tomorrow_start := replaceHour (now + 86400) 0
    let tomorrow_end := tomorrow_start + 86400
    entries.filter (fun en => tomorrow_start ≤ en.dt && en.dt < tomorrow_end)
  else if timeframe = "weekend" then
    let du0 := Int.fmod (5 - pyWeekday now) 7
    let days_until_saturday := if du0 = 0 ∧ hourOf now ≥ 12 then 7 else du0
    let weekend_start := replaceHour (now + days_until_saturday * 86400) 0
    let weekend_end := weekend_start + 2 * 86400
    entries.filter (fun en => weekend_start ≤ en.dt && en.dt < weekend_end)
  else
    -- `next_3_days` and any unrecognized value: `end_time = now + 72h`,
    -- keep entries with `datetime.fromtimestamp(entry["dt"]) <= end_time`
    -- (note: no lower bound in the source)
    let end_time := now + 72 * 3600
    entries.filter (fun en => en.dt ≤ end_time)

/-- The per-entry normalization of `get_forecast` (lines 102–123), inside
the `try`. -/
def normalizeEntry (units : String) (entry : RawEntry) :
    Except PyErr (List (String × PyLeaf)) := do
  let main := entry.main.getD RawMain.empty
  let weather ← headOrDefault entry.weather
  let wind := entry.wind.getD RawWind.empty
  pure [("datetime", PyLeaf.str (isoformat entry.dt)),
        ("timestamp", PyLeaf.int entry.dt),
        ("temp", leafOf main.temp),
        ("temp_unit", PyLeaf.str (tempUnitFor units)),
        ("feels_like", leafOf main.feels_like),
        ("temp_min", leafOf main.temp_min),
        ("temp_max", leafOf main.temp_max),
        ("condition", PyLeaf.str (weather.main.getD "Unknown")),
        ("description", PyLeaf.str (weather.description.getD "")),
        ("precipitation_prob", PyLeaf.rat (entry.pop.getD 0 * 100)),
        ("wind_speed", leafOf wind.speed),
        ("humidity", leafOf main.humidity),
        ("clouds", leafOf (entry.clouds.getD RawClouds.empty).all)]

/-- A value of the dict `get_forecast` returns: a leaf, or the list of
normalized entry dicts. -/
inductive FVal where
  | leaf (v : PyLeaf)
  | entryList (es : List (List (String × PyLeaf)))
  deriving DecidableEq, Repr

/-- `get_forecast` (`tools/forecast_tools.py` lines 9–137): the whole body
sits in `try: ... except Exception as e: return {...}`.  `upstream` is the
outcome of `client.forecast_5day(...)` — note that `OpenWeatherClient`
defines no such method, so in the deployed code this outcome is always
`Except.error (PyErr.attributeError "forecast_5day")`; the parameter also
lets us examine the filtering logic the source would run on provider data. -/
def get_forecast (lat lon : ℚ) (timeframe units : String) (now : ℤ)
    (upstream : Except PyErr RawForecast) : Except PyErr (List (String × FVal)) :=
  match (do
      let raw ← upstream
      let forecast_list := raw.list.getD []
      if forecast_list.isEmpty then
        pure [("error", FVal.leaf (PyLeaf.str "No forecast data available")),
              ("entries", FVal.entryList [])]
      else do
        let filtered := filterForecast timeframe now forecast_list
        let normalized ← filtered.mapM (normalizeEntry units)
        pure [("timeframe", FVal.leaf (PyLeaf.str timeframe)),
              ("entries", FVal.entryList normalized),
              ("count", FVal.leaf (PyLeaf.int normalized.length))]
    : Except PyErr (List (String × FVal))) with
  | Except.ok result => Except.ok result
  | Except.error e =>
    Except.ok
      [("error", FVal.leaf (PyLeaf.str ("Failed to fetch forecast data: " ++ e.toMessage))),
       ("timeframe", FVal.leaf (PyLeaf.str timeframe)),
       ("entries", FVal.entryList []),
       ("count", FVal.leaf (PyLeaf.int 0))]

/-! ## Tool-calling loop (`agents/weather_agent.py`)

`WeatherAgent.invoke` drives a conversation between an LLM and the tool
registry.  The LLM is an oracle `List Message → AIResponse` (the spec treats
the model provider as a black box); tools are opaque callables
`Dict → String` — the loop only ever stringifies their return value
(`str(result)`).  The `while True` loop becomes a fuel-indexed recursion:
`Option.none` models the diverging run that never sees a tool-call-free
response within the given fuel.  The result records, besides the returned
response, the full observable trace: every model query with the exact
message list it was sent, the tool executions performed, and the token tally
printed at line 72. -/

/-- `response.usage_metadata`: input/output/total token counts. -/
structure Usage where
  input_tokens : ℕ
  output_tokens : ℕ
  total_tokens : ℕ
  deriving DecidableEq, Repr

/-- The three `+=` accumulations at lines 58–60. -/
def Usage.add (u v : Usage) : Usage :=
  ⟨u.input_tokens + v.input_tokens, u.output_tokens + v.output_tokens,
   u.total_tokens + v.total_tokens⟩

/-- A tool-call request as emitted by the model:
`{"name": ..., "args": ..., "id": ...}`. -/
structure ToolCall where
  name : String
  args : Dict
  id : String
  deriving DecidableEq, Repr

/-- A model response: text content, usage metadata, tool-call requests. -/
structure AIResponse where
  content : String
  usage : Usage
  tool_calls : List ToolCall
  deriving DecidableEq, Repr

/-- A conversation message (`SystemMessage`, `HumanMessage`, the model's
`AIMessage`, `ToolMessage`). -/
inductive Message where
  | system (content : String)
  | human (content : String)
  | ai (response : AIResponse)
  | tool (content : String) (tool_call_id : String)
  deriving DecidableEq, Repr

/-- `prompts/system_prompts.py`: the `TOOL_SYSTEM_PROMPTS` table. -/
def TOOL_SYSTEM_PROMPTS : List (String × String) :=
  [("city_to_coords",
    "You have received geographic coordinates for a location.\nUse these coordinates to fetch weather data if needed.\nIf the location was not found (error field present), politely ask the user to provide a more specific city name or verify the spelling."),
   ("get_current_weather",
    "You have received current weather data for a location.\nPresent this information in a clear, conversational way:\n- Lead with the current temperature and condition\n- Mention feels-like temperature if significantly different\n- Include wind speed and humidity when relevant\n- Use appropriate units based on the data provided\n- Keep the response concise but informative\n\nIf there's an error field, inform the user that weather data is temporarily unavailable and suggest trying again.")]

/-- `get_tool_prompt`: table lookup with a generic fallback. -/
def get_tool_prompt (tool_name : String) : String :=
  (TOOL_SYSTEM_PROMPTS.lookup tool_name).getD
    "Process the tool result and provide a helpful response to the user."

/-- The agent's system prompt (`weather_agent.py` line 37). -/
def agentSystemPrompt : String :=
  "You are a helpful weather assistant. Provide clear, concise weather information. Ask for clarification if location is unclear."

/-- A tool registry: `self.tool_map.get`.  A registered tool is an opaque
callable whose stringified return value (`str(result)`) the loop records. -/
abbrev ToolRegistry := String → Option (Dict → String)

/-- The messages one tool-call request contributes (lines 82–100): for a
registered name, the tool-specific guidance `SystemMessage` followed by the
`ToolMessage` carrying the stringified result under the request's id; for an
unregistered name, nothing — `if tool:` has no `else` branch, so the call is
skipped. -/
def toolCallMessages (tool_map : ToolRegistry) (tc : ToolCall) : List Message :=
  match tool_map tc.name with
  | Option.some impl =>
    [Message.system (get_tool_prompt tc.name), Message.tool (impl tc.args) tc.id]
  | Option.none => []

/-- The `for tool_call in response.tool_calls` loop (lines 76–100): the
messages appended, plus the `(name, id)` trace of the tools actually
executed. -/
def handleToolCalls (tool_map : ToolRegistry) :
    List ToolCall → List Message × List (String × String)
  | [] => ([], [])
  | tc :: rest =>
    let tail := handleToolCalls tool_map rest
    match tool_map tc.name with
    | Option.some impl =>
      (Message.system (get_tool_prompt tc.name) ::
         Message.tool (impl tc.args) tc.id :: tail.1,
       (tc.name, tc.id) :: tail.2)
    | Option.none => tail

/-- One model query of the trace: the message list sent and the response. -/
structure QueryRecord where
  sent : List Message
  response : AIResponse
  deriving DecidableEq, Repr

/-- The observable outcome of `WeatherAgent.invoke`: the value of the
`return response` statement, the tally printed at line 72, and the traces. -/
structure InvokeResult where
  returned : AIResponse
  printed : Usage
  queries : List QueryRecord
  toolRuns : List (String × String)
  deriving DecidableEq, Repr

/-- The `while True` loop of `invoke` (lines 54–100).  `msgs` is the
conversation state the next query will be sent; `tally` the accumulated
usage; `qs`/`runs` the trace so far.  Each iteration queries the LLM,
accumulates usage, rebuilds the state as
`[system, user, response] ++ tool messages`, and either returns (no tool
calls) or loops. -/
def invokeLoop (llm : List Message → AIResponse) (tool_map : ToolRegistry)
    (sys user : String) :
    ℕ → List Message → Usage → List QueryRecord → List (String × String) →
    Option InvokeResult
  | 0, _, _, _, _ => Option.none
  | fuel + 1, msgs, tally, qs, runs =>
    let response := llm msgs
    let tally1 := tally.add response.usage
    let base := [Message.system sys, Message.human user, Message.ai response]
    if response.tool_calls.isEmpty then
      Option.some ⟨response, tally1, qs ++ [⟨msgs, response⟩], runs⟩
    else
      let handled := handleToolCalls tool_map response.tool_calls
      invokeLoop llm tool_map sys user fuel (base ++ handled.1) tally1
        (qs ++ [⟨msgs, response⟩]) (runs ++ handled.2)

/-- `WeatherAgent.invoke(message)`: initial state
`[SystemMessage(system_prompt), HumanMessage(message)]`, zeroed tally. -/
def invoke (llm : List Message → AIResponse) (tool_map : ToolRegistry)
    (user : String) (fuel : ℕ) : Option InvokeResult :=
  invokeLoop llm tool_map agentSystemPrompt user fuel
    [Message.system agentSystemPrompt, Message.human user] ⟨0, 0, 0⟩ [] []

/-- The agent's registry (`weather_agent.py` lines 28–31):
`{tool.name: tool for tool in [city_to_coords, get_current_weather]}`,
with the two tools' runtime behaviours passed in as opaque callables. -/
def weatherToolMap (cityImpl weatherImpl : Dict → String) : ToolRegistry :=
  fun n =>
    if n = "city_to_coords" then Option.some cityImpl
    else if n = "get_current_weather" then Option.some weatherImpl
    else Option.none

/-- The ids of the `ToolMessage`s in a message list, in order. -/
def toolResultIds : List Message → List String
  | [] => []
  | Message.tool _ tid :: rest => tid :: toolResultIds rest
  | _ :: rest => toolResultIds rest

/-! ### Concrete scenarios used by counterexamples and witnesses -/

/-- A concrete opaque tool behaviour. -/
def stubToolImpl : Dict → String := fun _ => "stub-result"

/-- First response of the unknown-tool scenario: the model requests the
unregistered tool name `frobnicate`. -/
def respUnknownOnly : AIResponse :=
  ⟨"", ⟨7, 3, 10⟩, [⟨"frobnicate", [], "call-1"⟩]⟩

/-- Final response of the unknown-tool scenario. -/
def respFinalA : AIResponse := ⟨"final answer", ⟨11, 5, 16⟩, []⟩

/-- LLM oracle of the unknown-tool scenario: the initial two-message state
gets the tool-calling response, any later state the final one. -/
def llmUnknown : List Message → AIResponse :=
  fun msgs => if msgs.length ≤ 2 then respUnknownOnly else respFinalA

/-- First response of the mixed scenario: one registered call
(`city_to_coords`) and one unregistered call (`get_forecast`, a tool of the
repository that `WeatherAgent` does not register). -/
def respMixed : AIResponse :=
  ⟨"", ⟨9, 4, 13⟩,
   [⟨"city_to_coords", [("city", PyLeaf.str "Paris")], "a1"⟩,
    ⟨"get_forecast", [("lat", PyLeaf.rat 48), ("lon", PyLeaf.rat 2)], "a2"⟩]⟩

/-- Final response of the mixed scenario. -/
def respFinalB : AIResponse := ⟨"done", ⟨12, 6, 18⟩, []⟩

/-- LLM oracle of the mixed scenario. -/
def llmMixed : List Message → AIResponse :=
  fun msgs => if msgs.length ≤ 2 then respMixed else respFinalB

/-- First response of the two-turn scenario: one registered call. -/
def respOneCall : AIResponse :=
  ⟨"", ⟨10, 5, 15⟩, [⟨"city_to_coords", [("city", PyLeaf.str "Tokyo")], "b1"⟩]⟩

/-- Final response of the two-turn scenario, with usage distinct from the
accumulated tally. -/
def respFinalC : AIResponse := ⟨"weather answer", ⟨20, 7, 27⟩, []⟩

/-- LLM oracle of the two-turn scenario. -/
def llmTwoTurns : List Message → AIResponse :=
  fun msgs => if msgs.length ≤ 2 then respOneCall else respFinalC

/-- An oracle that answers immediately with no tool calls. -/
def llmImmediate : List Message → AIResponse :=
  fun _ => ⟨"no tools needed", ⟨8, 2, 10⟩, []⟩

/-- A network where every attempt yields HTTP 503. -/
def outs503 : ℕ → AttemptOutcome :=
  fun _ => AttemptOutcome.response ⟨503, Option.none, ""⟩

/-- A network where every attempt yields HTTP 404. -/
def outs404 : ℕ → AttemptOutcome :=
  fun _ => AttemptOutcome.response ⟨404, Option.none, ""⟩

/-- A network whose first attempt yields HTTP 503 and second succeeds. -/
def outs503Then200 : ℕ → AttemptOutcome :=
  fun n =>
    if n = 1 then AttemptOutcome.response ⟨503, Option.none, ""⟩
    else AttemptOutcome.response ⟨200, Option.none, "ok-body"⟩

/-- Did the call return normally (no exception)? -/
def returnsNormally {α : Type} : Except PyErr α → Bool
  | Except.ok _ => true
  | Except.error _ => false

/-- The dict a normally-returning tool call produced (empty on exception;
used only to read key sets off results proven to be `Except.ok`). -/
def exceptDict {α : Type} : Except PyErr (List (String × α)) → List (String × α)
  | Except.ok d => d
  | Except.error _ => []

/-- A provider response that is an empty JSON object. -/
def emptyRawCurrent : RawCurrent :=
  ⟨Option.none, Option.none, Option.none, Option.none, Option.none⟩

/-- A forecast entry with only a timestamp (all optional fields absent). -/
def bareEntry (t : ℤ) : RawEntry :=
  ⟨t, Option.none, Option.none, Option.none, Option.none, Option.none⟩

/-- Provider data for the `next_3_days` scenario: one entry a full day in
the past, one just ahead of "now", one beyond 72 hours. -/
def raw9 : RawForecast :=
  ⟨Option.some [bareEntry (1700000000 - 86400), bareEntry (1700000000 + 1000),
                bareEntry (1700000000 + 300000)]⟩

/-- The `timestamp` fields of the entries of a forecast result. -/
def resultTimestamps (d : List (String × FVal)) : List (Option PyLeaf) :=
  match d.lookup "entries" with
  | Option.some (FVal.entryList es) => es.map (fun en => en.lookup "timestamp")
  | _ => []

/-- The list a normally-returning list computation produced. -/
def exceptList {α : Type} : Except PyErr (List α) → List α
  | Except.ok l => l
  | Except.error _ => []

/-! # Theorems -/

/-- C7: for every attempt number `n ≥ 1`, the computed retry delay equals
`backoff_factor * 2^(n-1)` (so `0.5`s for attempt 1 and `2.0`s for attempt 3
with `backoff_factor = 0.5`); when the failed response has status 429 and
carries a numeric `Retry-After` header the delay is the maximum of the
header value and the exponential delay (so `Retry-After: 10` with computed
delay `0.5` yields `10`); a non-numeric `Retry-After` header is ignored and
the exponential delay is used. -/
theorem C7_compute_delay_spec :
    (∀ (bf : ℚ) (n : ℕ), 1 ≤ n →
        compute_delay bf n Option.none = bf * 2 ^ (n - 1))
    ∧ (∀ (bf : ℚ) (n : ℕ) (r : HttpResponse), r.status ≠ 429 →
        compute_delay bf n (Option.some r) = bf * 2 ^ (n - 1))
    ∧ (∀ (bf : ℚ) (n : ℕ) (r : HttpResponse) (s : ℚ), r.status = 429 →
        r.retryAfter = Option.some (RAHeader.numeric s) →
        compute_delay bf n (Option.some r) = max s (bf * 2 ^ (n - 1)))
    ∧ (∀ (bf : ℚ) (n : ℕ) (r : HttpResponse),
        r.retryAfter = Option.some RAHeader.nonNumeric →
        compute_delay bf n (Option.some r) = bf * 2 ^ (n - 1))
    ∧ compute_delay (1/2) 1 Option.none = 1/2
    ∧ compute_delay (1/2) 3 Option.none = 2
    ∧ compute_delay (1/2) 1
        (Option.some ⟨429, Option.some (RAHeader.numeric 10), ""⟩) = 10 := by
  refine ⟨fun bf n _ => rfl, ?_, ?_, ?_, by norm_num [compute_delay],
    by norm_num [compute_delay], ?_⟩
  · intro bf n r h
    simp [compute_delay, h]
  · intro bf n r s h1 h2
    simp [compute_delay, h1, h2]
  · intro bf n r h
    rcases r with ⟨st, ra, b⟩
    simp only at h
    subst h
    simp [compute_delay]
  · show max 10 ((1/2 : ℚ) * 2 ^ (1 - 1)) = 10
    exact max_eq_left (by norm_num)

/-- Witness for C7: the theorem applied at attempts 2 and 4, at a 429 with
`Retry-After: 10`, and at a 429 with a non-numeric header. -/
theorem C7_compute_delay_spec_witness :
    compute_delay (1/2) 2 Option.none = (1/2) * 2 ^ (2 - 1)
    ∧ compute_delay 1 4 (Option.some ⟨503, Option.none, ""⟩) = 1 * 2 ^ (4 - 1)
    ∧ compute_delay (1/2) 1
        (Option.some ⟨429, Option.some (RAHeader.numeric 10), ""⟩)
      = max 10 ((1/2) * 2 ^ (1 - 1))
    ∧ compute_delay (1/2) 2 (Option.some ⟨429, Option.some RAHeader.nonNumeric, ""⟩)
      = (1/2) * 2 ^ (2 - 1) :=
  ⟨C7_compute_delay_spec.1 (1/2) 2 (by decide),
   C7_compute_delay_spec.2.1 1 4 ⟨503, Option.none, ""⟩ (by decide),
   C7_compute_delay_spec.2.2.1 (1/2) 1 ⟨429, Option.some (RAHeader.numeric 10), ""⟩
     10 rfl rfl,
   C7_compute_delay_spec.2.2.2.1 (1/2) 2 ⟨429, Option.some RAHeader.nonNumeric, ""⟩ rfl⟩

/-- C10: the caller's query-parameter mapping is left unchanged by the
client's GET — the API key is merged into a fresh copy (`qp = dict(params)`
then `qp["appid"] = key` touches only the fresh object). -/
theorem C10_caller_params_unchanged (h : Heap) (r : ℕ) (apiKey : String)
    (hr : r < h.dicts.length) :
    (openGetMergeParams h (Option.some r) apiKey).1.read r = h.read r
    ∧ (openGetMergeParams h (Option.some r) apiKey).2 ≠ r
    ∧ (openGetMergeParams h (Option.some r) apiKey).1.read
        (openGetMergeParams h (Option.some r) apiKey).2
      = dictSet (h.read r) "appid" (PyLeaf.str apiKey) := by
  refine ⟨?_, ?_, ?_⟩
  · show ((((h.dicts ++ [h.read r]).set h.dicts.length
        (dictSet (((h.dicts ++ [h.read r])[h.dicts.length]?).getD [])
          "appid" (PyLeaf.str apiKey))))[r]?).getD [] = h.read r
    rw [List.getElem?_set_ne (by omega)]
    rw [List.getElem?_append]
    simp [hr, Heap.read]
  · show h.dicts.length ≠ r
    omega
  · show ((((h.dicts ++ [h.read r]).set h.dicts.length
        (dictSet (((h.dicts ++ [h.read r])[h.dicts.length]?).getD [])
          "appid" (PyLeaf.str apiKey))))[h.dicts.length]?).getD []
      = dictSet (h.read r) "appid" (PyLeaf.str apiKey)
    rw [List.getElem?_set_eq_of_lt _ (by simp)]
    rw [List.getElem?_concat_length]
    rfl

/-- Witness for C10: a concrete heap holding one caller dict. -/
theorem C10_caller_params_unchanged_witness :
    (0 : ℕ) < (Heap.mk [[("q", PyLeaf.str "Paris"), ("limit", PyLeaf.int 1)]]).dicts.length
    ∧ (openGetMergeParams (Heap.mk [[("q", PyLeaf.str "Paris"), ("limit", PyLeaf.int 1)]])
        (Option.some 0) "KEY").1.read 0
      = (Heap.mk [[("q", PyLeaf.str "Paris"), ("limit", PyLeaf.int 1)]]).read 0 :=
  ⟨by decide,
   (C10_caller_params_unchanged
     (Heap.mk [[("q", PyLeaf.str "Paris"), ("limit", PyLeaf.int 1)]]) 0 "KEY"
     (by decide)).1⟩

/-- A successful (2xx) status is never one of the retried statuses. -/
theorem is2xx_not_retriable (s : ℕ) (h : is2xx s = true) :
    retriableStatus s = false := by
  simp only [is2xx, Bool.and_eq_true, decide_eq_true_eq] at h
  simp only [retriableStatus, Bool.or_eq_false_iff, Bool.and_eq_false_iff,
    decide_eq_false_iff_not]
  omega

/-- If every attempt in the remaining budget yields a retriable-status
response, `_get` sleeps and retries until the budget is exhausted, then
raises the status error built from the last response. -/
theorem getLoop_all_retryable (mr : ℕ) (bf : ℚ) (outs : ℕ → AttemptOutcome)
    (hall : ∀ i, ∃ r, outs i = AttemptOutcome.response r
              ∧ retriableStatus r.status = true) :
    ∀ fuel attempt, attempt + fuel = mr → 1 ≤ fuel →
      ∃ r sl, outs mr = AttemptOutcome.response r
        ∧ getLoop mr bf outs attempt fuel = ⟨mr, sl, GetResult.httpStatusError r.status⟩
        ∧ sl.length = fuel - 1 := by
  intro fuel
  induction fuel with
  | zero => intro attempt _ h1; omega
  | succ f ih =>
    intro attempt hsum _
    obtain ⟨r, hr, hrs⟩ := hall (attempt + 1)
    by_cases hf : 1 ≤ f
    · have hlt : attempt + 1 < mr := by omega
      obtain ⟨r2, sl2, hr2, hloop2, hlen2⟩ := ih (attempt + 1) (by omega) hf
      refine ⟨r2, compute_delay bf (attempt + 1) (Option.some r) :: sl2, hr2, ?_, ?_⟩
      · simp only [getLoop, hr, hrs, if_true, hlt, hloop2]
      · simp only [List.length_cons, hlen2]
        omega
    · have hf0 : f = 0 := by omega
      subst hf0
      have hmr : attempt + 1 = mr := by omega
      subst hmr
      refine ⟨r, [], hr, ?_, rfl⟩
      simp [getLoop, hr, hrs]

/-- C6: for every GET of the resilient client, a 429/5xx response is
retried (after sleeping) while attempts remain; once the `max_retries`
budget is exhausted the call raises an HTTP status error built from the
last response without a further attempt (so `mr` retriable responses cause
exactly `mr` attempts with `mr - 1` sleeps); any other non-2xx status
raises immediately with no retry and no sleep. -/
theorem C6_get_retry_policy :
    (∀ (bf : ℚ) (mr : ℕ) (outs : ℕ → AttemptOutcome), 1 ≤ mr →
      (∀ i, ∃ r, outs i = AttemptOutcome.response r
          ∧ retriableStatus r.status = true) →
      ∃ r sl, outs mr = AttemptOutcome.response r
        ∧ openGet mr bf outs = ⟨mr, sl, GetResult.httpStatusError r.status⟩
        ∧ sl.length = mr - 1)
    ∧ (∀ (bf : ℚ) (mr : ℕ) (outs : ℕ → AttemptOutcome) (r : HttpResponse),
        1 ≤ mr → outs 1 = AttemptOutcome.response r →
        retriableStatus r.status = false → is2xx r.status = false →
        openGet mr bf outs = ⟨1, [], GetResult.httpStatusError r.status⟩)
    ∧ (∀ (bf : ℚ) (mr : ℕ) (outs : ℕ → AttemptOutcome) (r1 r2 : HttpResponse),
        2 ≤ mr →
        outs 1 = AttemptOutcome.response r1 → retriableStatus r1.status = true →
        outs 2 = AttemptOutcome.response r2 → is2xx r2.status = true →
        openGet mr bf outs =
          ⟨2, [compute_delay bf 1 (Option.some r1)], GetResult.ok r2.body⟩) := by
  refine ⟨?_, ?_, ?_⟩
  · intro bf mr outs hmr hall
    have hmax : max 1 mr = mr := Nat.max_eq_right hmr
    unfold openGet
    rw [hmax]
    exact getLoop_all_retryable mr bf outs hall mr 0 (by omega) (by omega)
  · intro bf mr outs r hmr h1 hrs h2xx
    have hmax : max 1 mr = mr := Nat.max_eq_right hmr
    obtain ⟨m, rfl⟩ : ∃ m, mr = m + 1 := ⟨mr - 1, by omega⟩
    unfold openGet
    rw [hmax]
    simp only [getLoop, h1, hrs, if_false, Bool.false_eq_true, h2xx]
  · intro bf mr outs r1 r2 hmr h1 hrs1 h2 h2xx
    have hmax : max 1 mr = mr := Nat.max_eq_right (by omega)
    obtain ⟨m, rfl⟩ : ∃ m, mr = m + 2 := ⟨mr - 2, by omega⟩
    unfold openGet
    rw [hmax]
    have hlt1 : 0 + 1 < m + 2 := by omega
    have hrs2 := is2xx_not_retriable r2.status h2xx
    simp only [getLoop, h1, hrs1, if_true, hlt1, h2, hrs2, Bool.false_eq_true,
      if_false, h2xx, Nat.zero_add]

/-- Witness for C6: three consecutive 503s with `max_retries = 3` make
exactly three attempts and two sleeps then raise; a 404 raises on the first
attempt; a 503 followed by a 200 sleeps once and succeeds on attempt 2. -/
theorem C6_get_retry_policy_witness :
    (∃ r sl, outs503 3 = AttemptOutcome.response r
      ∧ openGet 3 (1/2) outs503 = ⟨3, sl, GetResult.httpStatusError r.status⟩
      ∧ sl.length = 3 - 1)
    ∧ openGet 3 (1/2) outs404 = ⟨1, [], GetResult.httpStatusError 404⟩
    ∧ openGet 3 (1/2) outs503Then200 =
        ⟨2, [compute_delay (1/2) 1 (Option.some ⟨503, Option.none, ""⟩)],
         GetResult.ok "ok-body"⟩ :=
  ⟨C6_get_retry_policy.1 (1/2) 3 outs503 (by omega)
     (fun _ => ⟨⟨503, Option.none, ""⟩, rfl, rfl⟩),
   C6_get_retry_policy.2.1 (1/2) 3 outs404 ⟨404, Option.none, ""⟩ (by omega)
     rfl rfl rfl,
   C6_get_retry_policy.2.2 (1/2) 3 outs503Then200 ⟨503, Option.none, ""⟩
     ⟨200, Option.none, "ok-body"⟩ (by omega) rfl rfl rfl rfl⟩

/-- C8: `city_to_coords` yields the error variant (non-empty error message,
null coordinates and name) when the provider returns no candidates;
otherwise it yields the first candidate's `lat`/`lon` with
`normalized_name` joining name, state and country (present parts only) by
`", "` — `{name: Paris, state: None, country: FR}` gives `"Paris, FR"` and
`{name: Paris, state: Texas, country: US}` gives `"Paris, Texas, US"`. -/
theorem C8_locate_spec (city : String) :
    (∃ msg, city_to_coords city (Except.ok []) =
        Except.ok [("error", PyLeaf.str msg), ("lat", PyLeaf.none),
                   ("lon", PyLeaf.none), ("normalized_name", PyLeaf.none)]
      ∧ msg ≠ "")
    ∧ (∀ (place : GeoPlace) (rest : List GeoPlace) (lat lon : ℚ),
        place.lat = Option.some lat → place.lon = Option.some lon →
        city_to_coords city (Except.ok (place :: rest)) =
          Except.ok [("lat", PyLeaf.rat lat), ("lon", PyLeaf.rat lon),
                     ("normalized_name", PyLeaf.str (buildNormalizedName place))])
    ∧ buildNormalizedName ⟨Option.some "Paris", Option.none, Option.some "FR",
        Option.none, Option.none⟩ = "Paris, FR"
    ∧ buildNormalizedName ⟨Option.some "Paris", Option.some "Texas",
        Option.some "US", Option.none, Option.none⟩ = "Paris, Texas, US" := by
  refine ⟨⟨"Could not find coordinates for '" ++ city ++ "'", rfl, ?_⟩,
    ?_, by decide, by decide⟩
  · intro hmsg
    have h2 := congrArg String.length hmsg
    rw [String.length_append, String.length_append] at h2
    have h3 : ("'" : String).length = 1 := rfl
    have h4 : ("" : String).length = 0 := rfl
    omega
  · intro place rest lat lon hla hlo
    simp [city_to_coords, getItemQ, hla, hlo, Bind.bind, Except.bind,
      Functor.map, Except.map, pure, Except.pure]

/-- Witness for C8: the theorem applied to a concrete one-candidate
geocoding result. -/
theorem C8_locate_spec_witness :
    city_to_coords "Paris"
      (Except.ok [⟨Option.some "Paris", Option.none, Option.some "FR",
                   Option.some (4885/100), Option.some (235/100)⟩]) =
      Except.ok [("lat", PyLeaf.rat (4885/100)), ("lon", PyLeaf.rat (235/100)),
                 ("normalized_name", PyLeaf.str "Paris, FR")] := by
  have h := (C8_locate_spec "Paris").2.1
    ⟨Option.some "Paris", Option.none, Option.some "FR",
     Option.some (4885/100), Option.some (235/100)⟩ [] (4885/100) (235/100) rfl rfl
  rw [h]
  rfl

/-- C3 counterexample: `city_to_coords` is not total — when the upstream
geocoding call fails (here: HTTP 404 raised by the client), the exception
escapes the tool instead of becoming an error-tagged result. -/
theorem C3_counterexample :
    city_to_coords "Paris" (Except.error (PyErr.httpStatusError 404)) =
      Except.error (PyErr.httpStatusError 404)
    ∧ returnsNormally
        (city_to_coords "Paris" (Except.error (PyErr.httpStatusError 404))) = false :=
  ⟨rfl, rfl⟩

/-- C3 amended: `get_current_weather` and `get_forecast` are total — for
every input and upstream outcome they return a result and never let an
exception escape — but `city_to_coords` has no such guard: every upstream
geocoding failure propagates out of the tool unchanged. -/
theorem C3_amended_tool_totality :
    (∀ (lat lon : ℚ) (units : String) (upstream : Except PyErr RawCurrent),
        returnsNormally (get_current_weather lat lon units upstream) = true)
    ∧ (∀ (lat lon : ℚ) (timeframe units : String) (now : ℤ)
          (upstream : Except PyErr RawForecast),
        returnsNormally (get_forecast lat lon timeframe units now upstream) = true)
    ∧ (∀ (city : String) (e : PyErr),
        city_to_coords city (Except.error e) = Except.error e) := by
  refine ⟨?_, ?_, fun city e => rfl⟩
  · intro lat lon units upstream
    unfold get_current_weather
    split <;> rfl
  · intro lat lon timeframe units now upstream
    unfold get_forecast
    split <;> rfl

/-- C5 counterexample: the error result of `get_current_weather` does not
have the same field shape as its success result — it carries only
`error` plus 7 of the 12 success keys (`temp_unit`, `wind_unit`,
`wind_deg`, `pressure`, `visibility` are missing). -/
theorem C5_counterexample :
    keysOf (exceptDict (get_current_weather 0 0 "metric"
        (Except.error (PyErr.transportError "timeout"))))
      = ["error", "temp", "feels_like", "condition", "description",
         "wind_speed", "humidity", "clouds"]
    ∧ keysOf (exceptDict (get_current_weather 0 0 "metric"
        (Except.ok emptyRawCurrent)))
      = ["temp", "temp_unit", "feels_like", "condition", "description",
         "wind_speed", "wind_unit", "wind_deg", "humidity", "clouds",
         "pressure", "visibility"]
    ∧ (["error", "temp", "feels_like", "condition", "description",
        "wind_speed", "humidity", "clouds"] : List String)
      ≠ ["temp", "temp_unit", "feels_like", "condition", "description",
         "wind_speed", "wind_unit", "wind_deg", "humidity", "clouds",
         "pressure", "visibility"]
    ∧ "temp_unit" ∉ (["error", "temp", "feels_like", "condition", "description",
        "wind_speed", "humidity", "clouds"] : List String) := by
  refine ⟨rfl, rfl, by decide, by decide⟩

/-- C5 amended: a tool failure in `get_current_weather` is converted into a
result whose keys are `error` plus a null-valued proper subset of the
success schema: the success keys minus `temp_unit`, `wind_unit`,
`wind_deg`, `pressure` and `visibility`. -/
theorem C5_amended_error_shape :
    (∀ (lat lon : ℚ) (units : String) (e : PyErr),
      ∃ msg, get_current_weather lat lon units (Except.error e) =
        Except.ok [("error", PyLeaf.str msg),
                   ("temp", PyLeaf.none), ("feels_like", PyLeaf.none),
                   ("condition", PyLeaf.none), ("description", PyLeaf.none),
                   ("wind_speed", PyLeaf.none), ("humidity", PyLeaf.none),
                   ("clouds", PyLeaf.none)] ∧ msg ≠ "")
    ∧ (∀ (raw : RawCurrent) (units : String) (d : List (String × PyLeaf)),
        normalizeCurrent raw units = Except.ok d →
        keysOf d = ["temp", "temp_unit", "feels_like", "condition",
                    "description", "wind_speed", "wind_unit", "wind_deg",
                    "humidity", "clouds", "pressure", "visibility"])
    ∧ (["error", "temp", "feels_like", "condition", "description",
        "wind_speed", "humidity", "clouds"] : List String)
      = "error" :: (["temp", "temp_unit", "feels_like", "condition",
          "description", "wind_speed", "wind_unit", "wind_deg", "humidity",
          "clouds", "pressure", "visibility"].filter
            (fun k => !(["temp_unit", "wind_unit", "wind_deg", "pressure",
                         "visibility"] : List String).contains k)) := by
  refine ⟨?_, ?_, by decide⟩
  · intro lat lon units e
    refine ⟨"Failed to fetch weather data: " ++ e.toMessage, rfl, ?_⟩
    intro hmsg
    have h2 := congrArg String.length hmsg
    rw [String.length_append] at h2
    have h3 : ("Failed to fetch weather data: " : String).length = 30 := rfl
    have h4 : ("" : String).length = 0 := rfl
    omega
  · intro raw units d hd
    unfold normalizeCurrent at hd
    cases hw : headOrDefault raw.weather with
    | error e =>
      rw [hw] at hd
      exact absurd hd (by simp [Bind.bind, Except.bind])
    | ok w =>
      rw [hw] at hd
      simp only [Bind.bind, Except.bind, pure, Except.pure, Except.ok.injEq] at hd
      subst hd
      rfl

/-- Witness for C5: the theorem applied at a concrete transport failure and
at a concrete success. -/
theorem C5_amended_error_shape_witness :
    (∃ msg, get_current_weather 0 0 "metric"
        (Except.error (PyErr.transportError "timeout")) =
      Except.ok [("error", PyLeaf.str msg),
                 ("temp", PyLeaf.none), ("feels_like", PyLeaf.none),
                 ("condition", PyLeaf.none), ("description", PyLeaf.none),
                 ("wind_speed", PyLeaf.none), ("humidity", PyLeaf.none),
                 ("clouds", PyLeaf.none)] ∧ msg ≠ "")
    ∧ keysOf (exceptDict (normalizeCurrent emptyRawCurrent "metric"))
      = ["temp", "temp_unit", "feels_like", "condition", "description",
         "wind_speed", "wind_unit", "wind_deg", "humidity", "clouds",
         "pressure", "visibility"] := by
  constructor
  · exact C5_amended_error_shape.1 0 0 "metric" (PyErr.transportError "timeout")
  · have h := C5_amended_error_shape.2.1 emptyRawCurrent "metric"
      (exceptDict (normalizeCurrent emptyRawCurrent "metric")) rfl
    exact h

/-- `handleToolCalls` emits, per call in emission order, exactly the block
`toolCallMessages` produces for that call. -/
theorem handleToolCalls_fst (tool_map : ToolRegistry) (tcs : List ToolCall) :
    (handleToolCalls tool_map tcs).1
      = (tcs.map (toolCallMessages tool_map)).flatten := by
  induction tcs with
  | nil => rfl
  | cons tc rest ih =>
    cases h : tool_map tc.name <;>
      simp [handleToolCalls, toolCallMessages, h, ih]

/-- The tools executed are exactly the registered-named calls, in order. -/
theorem handleToolCalls_snd (tool_map : ToolRegistry) (tcs : List ToolCall) :
    (handleToolCalls tool_map tcs).2
      = (tcs.filter (fun tc => (tool_map tc.name).isSome)).map
          (fun tc => (tc.name, tc.id)) := by
  induction tcs with
  | nil => rfl
  | cons tc rest ih =>
    cases h : tool_map tc.name <;>
      simp [handleToolCalls, h, ih, List.filter_cons]

/-- `toolResultIds` distributes over append. -/
theorem toolResultIds_append (l1 l2 : List Message) :
    toolResultIds (l1 ++ l2) = toolResultIds l1 ++ toolResultIds l2 := by
  induction l1 with
  | nil => rfl
  | cons m rest ih => cases m <;> simp [toolResultIds, ih]

/-- The Tool Result ids appended in a turn are exactly the ids of the
registered-named calls, in emission order. -/
theorem toolResultIds_blocks (tool_map : ToolRegistry) (tcs : List ToolCall) :
    toolResultIds ((tcs.map (toolCallMessages tool_map)).flatten)
      = (tcs.filter (fun tc => (tool_map tc.name).isSome)).map
          (fun tc => tc.id) := by
  induction tcs with
  | nil => rfl
  | cons tc rest ih =>
    cases h : tool_map tc.name <;>
      simp [toolCallMessages, h, toolResultIds_append, toolResultIds, ih,
        List.filter_cons]

/-- Run invariant of the tool-calling loop: a completed run decomposes into
the non-empty list of queries made from the entry state on, consecutive
queries linked by the conversation rebuild
`[system, user, response] ++ tool messages`; every query's response is the
oracle's answer to exactly the messages sent; only the last response is
tool-call-free, and it is the returned value; the printed tally accumulates
every query's usage, and the tool-run trace comes from the non-final
responses. -/
theorem invokeLoop_spec (llm : List Message → AIResponse)
    (tool_map : ToolRegistry) (sys user : String) :
    ∀ (fuel : ℕ) (msgs : List Message) (tally : Usage) (qs : List QueryRecord)
      (runs : List (String × String)) (res : InvokeResult),
      invokeLoop llm tool_map sys user fuel msgs tally qs runs = Option.some res →
      ∃ newqs : List QueryRecord,
        res.queries = qs ++ newqs
        ∧ newqs ≠ []
        ∧ newqs.head?.map (fun q => q.sent) = Option.some msgs
        ∧ (∀ q ∈ newqs, q.response = llm q.sent)
        ∧ List.Chain' (fun q q2 => q2.sent =
            [Message.system sys, Message.human user, Message.ai q.response]
              ++ (handleToolCalls tool_map q.response.tool_calls).1) newqs
        ∧ (∀ q ∈ newqs.dropLast, q.response.tool_calls ≠ [])
        ∧ (∃ qlast, newqs.getLast? = Option.some qlast
            ∧ qlast.response.tool_calls = []
            ∧ res.returned = qlast.response)
        ∧ res.printed = newqs.foldl (fun u q => u.add q.response.usage) tally
        ∧ res.toolRuns = runs ++ (newqs.dropLast.map
            (fun q => (handleToolCalls tool_map q.response.tool_calls).2)).flatten := by
  intro fuel
  induction fuel with
  | zero =>
    intro msgs tally qs runs res h
    exact absurd h (by simp [invokeLoop])
  | succ fuel ih =>
    intro msgs tally qs runs res h
    by_cases he : (llm msgs).tool_calls.isEmpty = true
    · have hstep : invokeLoop llm tool_map sys user (fuel + 1) msgs tally qs runs
          = Option.some ⟨llm msgs, tally.add (llm msgs).usage,
              qs ++ [⟨msgs, llm msgs⟩], runs⟩ := by
        simp [invokeLoop, he]
      rw [hstep] at h
      have hres := (Option.some.inj h).symm
      subst hres
      refine ⟨[⟨msgs, llm msgs⟩], rfl, List.cons_ne_nil _ _, rfl, ?_,
        List.chain'_singleton _, ?_, ?_, rfl, by simp⟩
      · intro q hq
        rcases List.mem_singleton.mp hq with rfl
        rfl
      · intro q hq
        simp at hq
      · exact ⟨⟨msgs, llm msgs⟩, List.getLast?_singleton _,
          List.isEmpty_iff.mp he, rfl⟩
    · have he2 : (llm msgs).tool_calls.isEmpty = false := Bool.eq_false_iff.mpr he
      have he3 : (llm msgs).tool_calls ≠ [] := List.isEmpty_eq_false.mp he2
      have hstep : invokeLoop llm tool_map sys user (fuel + 1) msgs tally qs runs
          = invokeLoop llm tool_map sys user fuel
              ([Message.system sys, Message.human user, Message.ai (llm msgs)]
                ++ (handleToolCalls tool_map (llm msgs).tool_calls).1)
              (tally.add (llm msgs).usage)
              (qs ++ [⟨msgs, llm msgs⟩])
              (runs ++ (handleToolCalls tool_map (llm msgs).tool_calls).2) := by
        simp [invokeLoop, he2]
      rw [hstep] at h
      obtain ⟨newqs, hq, hne, hhead, hresp, hchain, hdrop, hlast, hprint, hruns⟩ :=
        ih _ _ _ _ _ h
      refine ⟨⟨msgs, llm msgs⟩ :: newqs, ?_, List.cons_ne_nil _ _, rfl, ?_, ?_,
        ?_, ?_, ?_, ?_⟩
      · rw [hq, List.append_assoc]
        rfl
      · intro q hq2
        rcases List.mem_cons.mp hq2 with rfl | hmem
        · rfl
        · exact hresp q hmem
      · rw [List.chain'_cons']
        refine ⟨?_, hchain⟩
        intro y hy
        cases hh : newqs.head? with
        | none =>
          rw [hh] at hy
          simp at hy
        | some y0 =>
          rw [hh] at hy hhead
          simp only [Option.mem_some_iff] at hy
          rw [Option.map_some'] at hhead
          cases hy
          exact Option.some.inj hhead
      · intro q hq2
        rw [List.dropLast_cons_of_ne_nil hne] at hq2
        rcases List.mem_cons.mp hq2 with rfl | hmem
        · exact he3
        · exact hdrop q hmem
      · obtain ⟨ql, hql, hqlt, hqlr⟩ := hlast
        refine ⟨ql, ?_, hqlt, hqlr⟩
        cases newqs with
        | nil => exact absurd rfl hne
        | cons a l =>
          rw [List.getLast?_cons_cons]
          exact hql
      · rw [hprint]
        rfl
      · rw [hruns, List.dropLast_cons_of_ne_nil hne]
        simp [List.append_assoc]

/-- C9 counterexample: with timeframe `next_3_days`, an entry dated a full
day before "now" passes the filter and shows up in the result — inclusion
is not "between now and now + 72 hours" as claimed, because the source has
no lower bound. -/
theorem C9_counterexample :
    resultTimestamps (exceptDict
        (get_forecast 0 0 "next_3_days" "metric" 1700000000 (Except.ok raw9)))
      = [Option.some (PyLeaf.int (1700000000 - 86400)),
         Option.some (PyLeaf.int (1700000000 + 1000))]
    ∧ (1700000000 - 86400 : ℤ) < 1700000000 :=
  ⟨rfl, by decide⟩

/-- C9 amended: for timeframe `next_3_days` — and any unrecognized
timeframe, which falls back to the same branch — an entry is kept if and
only if its timestamp is at most `now + 72` hours; there is no lower bound,
so entries before "now" are kept as well. -/
theorem C9_next3days_filter (timeframe : String) (now : ℤ)
    (hn1 : timeframe ≠ "tonight") (hn2 : timeframe ≠ "tomorrow")
    (hn3 : timeframe ≠ "weekend") :
    (∀ (entries : List RawEntry) (en : RawEntry),
        en ∈ filterForecast timeframe now entries ↔
          en ∈ entries ∧ en.dt ≤ now + 72 * 3600)
    ∧ (∀ (lat lon : ℚ) (units : String) (raw : RawForecast)
          (es : List RawEntry) (ns : List (List (String × PyLeaf))),
        raw.list = Option.some es → es ≠ [] →
        (filterForecast timeframe now es).mapM (normalizeEntry units) =
          Except.ok ns →
        get_forecast lat lon timeframe units now (Except.ok raw) =
          Except.ok [("timeframe", FVal.leaf (PyLeaf.str timeframe)),
                     ("entries", FVal.entryList ns),
                     ("count", FVal.leaf (PyLeaf.int ns.length))]) := by
  constructor
  · intro entries en
    simp [filterForecast, hn1, hn2, hn3, List.mem_filter]
  · intro lat lon units raw es ns hraw hne hmap
    have hie : es.isEmpty = false := by
      cases es with
      | nil => exact absurd rfl hne
      | cons a l => rfl
    unfold get_forecast
    simp only [Bind.bind, Except.bind]
    rw [hraw]
    unfold List.mapM at hmap
    simp [Option.getD, hie, hmap, pure, Except.pure]

/-- Witness for C9: the amended theorem applied to the concrete scenario
(`raw9`, `now = 1700000000`). -/
theorem C9_next3days_filter_witness :
    get_forecast 0 0 "next_3_days" "metric" 1700000000 (Except.ok raw9) =
      Except.ok [("timeframe", FVal.leaf (PyLeaf.str "next_3_days")),
                 ("entries", FVal.entryList (exceptList
                    ((filterForecast "next_3_days" 1700000000
                        [bareEntry (1700000000 - 86400),
                         bareEntry (1700000000 + 1000),
                         bareEntry (1700000000 + 300000)]).mapM
                      (normalizeEntry "metric")))),
                 ("count", FVal.leaf (PyLeaf.int (exceptList
                    ((filterForecast "next_3_days" 1700000000
                        [bareEntry (1700000000 - 86400),
                         bareEntry (1700000000 + 1000),
                         bareEntry (1700000000 + 300000)]).mapM
                      (normalizeEntry "metric"))).length))] :=
  (C9_next3days_filter "next_3_days" 1700000000 (by decide) (by decide)
      (by decide)).2 0 0 "metric" raw9
    [bareEntry (1700000000 - 86400), bareEntry (1700000000 + 1000),
     bareEntry (1700000000 + 300000)]
    (exceptList ((filterForecast "next_3_days" 1700000000
        [bareEntry (1700000000 - 86400), bareEntry (1700000000 + 1000),
         bareEntry (1700000000 + 300000)]).mapM (normalizeEntry "metric")))
    rfl (List.cons_ne_nil _ _) rfl

/-- C1 counterexample: the model requests the unregistered tool name
`frobnicate` (id `call-1`); the loop records no Tool Result at all — in
particular none stating the tool is unknown — before the next query: the
rebuilt state is just `[system, user, response]`. -/
theorem C1_counterexample :
    ((invoke llmUnknown (weatherToolMap stubToolImpl stubToolImpl)
        "what is the weather" 5).map (fun res => res.queries.map (fun q => q.sent)))
      = Option.some
          [[Message.system agentSystemPrompt, Message.human "what is the weather"],
           [Message.system agentSystemPrompt, Message.human "what is the weather",
            Message.ai respUnknownOnly]]
    ∧ respUnknownOnly.tool_calls.map (fun tc => (tc.name, tc.id))
        = [("frobnicate", "call-1")]
    ∧ weatherToolMap stubToolImpl stubToolImpl "frobnicate" = Option.none
    ∧ toolResultIds
        [Message.system agentSystemPrompt, Message.human "what is the weather",
         Message.ai respUnknownOnly] = [] :=
  ⟨rfl, rfl, rfl, rfl⟩

/-- C1 amended: a requested tool name not found in the registry is silently
skipped — the loop records no Tool Result for it — while the registered
calls of the same turn are still processed in order and the loop continues
to the next model query rather than aborting. -/
theorem C1_unknown_tool_skipped (tool_map : ToolRegistry) :
    (∀ tc : ToolCall, tool_map tc.name = Option.none →
        toolCallMessages tool_map tc = [])
    ∧ (∀ tcs : List ToolCall,
        handleToolCalls tool_map tcs
          = handleToolCalls tool_map
              (tcs.filter (fun tc => (tool_map tc.name).isSome)))
    ∧ (∀ (llm : List Message → AIResponse) (sys user : String) (fuel : ℕ)
          (msgs : List Message) (tally : Usage) (qs : List QueryRecord)
          (runs : List (String × String)),
        (llm msgs).tool_calls ≠ [] →
        invokeLoop llm tool_map sys user (fuel + 1) msgs tally qs runs
          = invokeLoop llm tool_map sys user fuel
              ([Message.system sys, Message.human user, Message.ai (llm msgs)]
                ++ (handleToolCalls tool_map (llm msgs).tool_calls).1)
              (tally.add (llm msgs).usage)
              (qs ++ [⟨msgs, llm msgs⟩])
              (runs ++ (handleToolCalls tool_map (llm msgs).tool_calls).2)) := by
  refine ⟨?_, ?_, ?_⟩
  · intro tc h
    simp [toolCallMessages, h]
  · intro tcs
    induction tcs with
    | nil => rfl
    | cons tc rest ih =>
      cases h : tool_map tc.name <;>
        simp [handleToolCalls, h, ih, List.filter_cons]
  · intro llm sys user fuel msgs tally qs runs hne
    have he2 : (llm msgs).tool_calls.isEmpty = false :=
      List.isEmpty_eq_false.mpr hne
    simp [invokeLoop, he2]

/-- Witness for C1: the amended theorem applied to the `frobnicate`
scenario. -/
theorem C1_unknown_tool_skipped_witness :
    toolCallMessages (weatherToolMap stubToolImpl stubToolImpl)
      ⟨"frobnicate", [], "call-1"⟩ = []
    ∧ invokeLoop llmUnknown (weatherToolMap stubToolImpl stubToolImpl)
        agentSystemPrompt "what is the weather" 3
        [Message.system agentSystemPrompt, Message.human "what is the weather"]
        ⟨0, 0, 0⟩ [] []
      = invokeLoop llmUnknown (weatherToolMap stubToolImpl stubToolImpl)
          agentSystemPrompt "what is the weather" 2
          [Message.system agentSystemPrompt, Message.human "what is the weather",
           Message.ai respUnknownOnly]
          respUnknownOnly.usage
          [⟨[Message.system agentSystemPrompt, Message.human "what is the weather"],
            respUnknownOnly⟩]
          [] := by
  constructor
  · exact (C1_unknown_tool_skipped
      (weatherToolMap stubToolImpl stubToolImpl)).1 ⟨"frobnicate", [], "call-1"⟩ rfl
  · exact (C1_unknown_tool_skipped
      (weatherToolMap stubToolImpl stubToolImpl)).2.2 llmUnknown agentSystemPrompt
      "what is the weather" 2
      [Message.system agentSystemPrompt, Message.human "what is the weather"]
      ⟨0, 0, 0⟩ [] [] (List.cons_ne_nil _ _)

/-- C2 counterexample: the first response emits two tool-call requests
(ids `a1`, `a2`; `a2` names `get_forecast`, which the agent does not
register) but only one Tool Result (`a1`) reaches the next query — the
counts and id lists do not match one-to-one. -/
theorem C2_counterexample :
    ((invoke llmMixed (weatherToolMap stubToolImpl stubToolImpl)
        "forecast please" 5).map
        (fun res => res.queries.map (fun q => toolResultIds q.sent)))
      = Option.some [[], ["a1"]]
    ∧ ((invoke llmMixed (weatherToolMap stubToolImpl stubToolImpl)
        "forecast please" 5).map
        (fun res => res.queries.map
          (fun q => q.response.tool_calls.map (fun tc => tc.id))))
      = Option.some [["a1", "a2"], []]
    ∧ (["a1"] : List String) ≠ ["a1", "a2"] :=
  ⟨rfl, rfl, by decide⟩

/-- C2 amended: in every completed invocation the state passed to each next
model query is exactly `[system message, original user message, the model's
response]` followed, for each tool-call request in emission order, by the
guidance message and the Tool Result of that request when its name is
registered (an unregistered name contributes nothing); hence the Tool
Result ids of a turn equal, one-to-one in emission order, the ids of the
registered-named requests of that turn. -/
theorem C2_conversation_rebuild (llm : List Message → AIResponse)
    (tool_map : ToolRegistry) (user : String) (fuel : ℕ) (res : InvokeResult)
    (h : invoke llm tool_map user fuel = Option.some res) :
    res.queries.head?.map (fun q => q.sent)
      = Option.some [Message.system agentSystemPrompt, Message.human user]
    ∧ List.Chain' (fun q q2 => q2.sent =
        [Message.system agentSystemPrompt, Message.human user,
         Message.ai q.response]
          ++ (q.response.tool_calls.map (toolCallMessages tool_map)).flatten)
        res.queries
    ∧ (∀ tcs : List ToolCall,
        toolResultIds ((tcs.map (toolCallMessages tool_map)).flatten)
          = (tcs.filter (fun tc => (tool_map tc.name).isSome)).map
              (fun tc => tc.id)) := by
  obtain ⟨newqs, hq, hne, hhead, hresp, hchain, hdrop, hlast, hprint, hruns⟩ :=
    invokeLoop_spec llm tool_map agentSystemPrompt user fuel _ _ _ _ _ h
  have hq0 : res.queries = newqs := by simpa using hq
  refine ⟨?_, ?_, toolResultIds_blocks tool_map⟩
  · rw [hq0]
    exact hhead
  · rw [hq0]
    exact hchain.imp (fun q q2 hrel => by
      rw [handleToolCalls_fst] at hrel
      exact hrel)

/-- Witness for C2: the amended theorem applied to the mixed scenario. -/
theorem C2_conversation_rebuild_witness :
    ∃ res, invoke llmMixed (weatherToolMap stubToolImpl stubToolImpl)
        "forecast please" 5 = Option.some res
      ∧ List.Chain' (fun q q2 => q2.sent =
          [Message.system agentSystemPrompt, Message.human "forecast please",
           Message.ai q.response]
            ++ (q.response.tool_calls.map
                (toolCallMessages (weatherToolMap stubToolImpl stubToolImpl))).flatten)
          res.queries := by
  refine ⟨_, rfl, ?_⟩
  exact (C2_conversation_rebuild llmMixed
    (weatherToolMap stubToolImpl stubToolImpl) "forecast please" 5 _ rfl).2.1

/-- C4 counterexample: the final usage tally is printed, not returned — in
a two-query run the returned response carries only the last query's usage
metadata (20/7/27), while the accumulated tally of the invocation is
30/12/42. -/
theorem C4_counterexample :
    ((invoke llmTwoTurns (weatherToolMap stubToolImpl stubToolImpl)
        "tokyo weather" 5).map (fun res => (res.returned.usage, res.printed)))
      = Option.some (⟨20, 7, 27⟩, ⟨30, 12, 42⟩)
    ∧ (⟨20, 7, 27⟩ : Usage) ≠ ⟨30, 12, 42⟩ :=
  ⟨rfl, by decide⟩

/-- C4 amended: whenever a model response carries no tool-call requests the
loop terminates immediately — that response is the returned value and no
tool runs in that final iteration (all tool executions stem from earlier,
tool-calling responses); the usage tally accumulated over every model query
is printed to diagnostics rather than returned; in particular a
tool-call-free first response means exactly one query and no tool invoked
at all. -/
theorem C4_termination (llm : List Message → AIResponse)
    (tool_map : ToolRegistry) (user : String) (fuel : ℕ) (res : InvokeResult)
    (h : invoke llm tool_map user fuel = Option.some res) :
    (∃ qlast, res.queries.getLast? = Option.some qlast
        ∧ qlast.response.tool_calls = []
        ∧ res.returned = qlast.response)
    ∧ (∀ q ∈ res.queries.dropLast, q.response.tool_calls ≠ [])
    ∧ res.printed = res.queries.foldl (fun u q => u.add q.response.usage) ⟨0, 0, 0⟩
    ∧ res.toolRuns = (res.queries.dropLast.map
        (fun q => (handleToolCalls tool_map q.response.tool_calls).2)).flatten
    ∧ ((llm [Message.system agentSystemPrompt, Message.human user]).tool_calls = [] →
        res.queries.map (fun q => q.sent)
          = [[Message.system agentSystemPrompt, Message.human user]]
        ∧ res.toolRuns = []
        ∧ res.returned
            = llm [Message.system agentSystemPrompt, Message.human user]) := by
  obtain ⟨newqs, hq, hne, hhead, hresp, hchain, hdrop, hlast, hprint, hruns⟩ :=
    invokeLoop_spec llm tool_map agentSystemPrompt user fuel _ _ _ _ _ h
  have hq0 : res.queries = newqs := by simpa using hq
  have hruns0 : res.toolRuns = (newqs.dropLast.map
      (fun q => (handleToolCalls tool_map q.response.tool_calls).2)).flatten := by
    simpa using hruns
  refine ⟨by rw [hq0]; exact hlast, by rw [hq0]; exact hdrop,
    by rw [hq0]; exact hprint, by rw [hq0]; exact hruns0, ?_⟩
  intro hfirst
  have hsingle : newqs = [⟨[Message.system agentSystemPrompt, Message.human user],
      llm [Message.system agentSystemPrompt, Message.human user]⟩] := by
    cases newqs with
    | nil => exact absurd rfl hne
    | cons q0 rest =>
      rw [List.head?_cons, Option.map_some'] at hhead
      have hsent : q0.sent = [Message.system agentSystemPrompt, Message.human user] :=
        Option.some.inj hhead
      have hr0 : q0.response = llm q0.sent := hresp q0 (List.mem_cons_self _ _)
      cases rest with
      | nil =>
        rcases q0 with ⟨s0, r0⟩
        simp only at hsent hr0
        rw [hsent] at hr0 ⊢
        rw [hr0]
      | cons q1 rest2 =>
        exfalso
        have hq0mem : q0 ∈ (q0 :: q1 :: rest2).dropLast := by
          rw [List.dropLast_cons_of_ne_nil (List.cons_ne_nil _ _)]
          exact List.mem_cons_self _ _
        have := hdrop q0 hq0mem
        rw [hr0, hsent] at this
        exact this hfirst
  refine ⟨?_, ?_, ?_⟩
  · rw [hq0, hsingle]
    rfl
  · rw [hruns0, hsingle]
    rfl
  · obtain ⟨ql, hql, hqlt, hqlr⟩ := hlast
    rw [hsingle, List.getLast?_singleton] at hql
    rw [hqlr, ← Option.some.inj hql]

/-- Witness for C4: the amended theorem applied to a run whose first
response carries no tool calls. -/
theorem C4_termination_witness :
    ∃ res, invoke llmImmediate (weatherToolMap stubToolImpl stubToolImpl)
        "hello" 3 = Option.some res
      ∧ res.queries.map (fun q => q.sent)
          = [[Message.system agentSystemPrompt, Message.human "hello"]]
      ∧ res.toolRuns = []
      ∧ res.returned
          = llmImmediate [Message.system agentSystemPrompt, Message.human "hello"] := by
  refine ⟨_, rfl, ?_⟩
  exact (C4_termination llmImmediate (weatherToolMap stubToolImpl stubToolImpl)
    "hello" 3 _ rfl).2.2.2.2 rfl

end WeatherAgentModel
